import Mathlib

/- Shallow embedding of the cpp-harem typed error-context mechanism
   (src/main.cpp).  Tag kinds are identified by the hash code of their
   marker type (typeid(tag_type).hash_code()); the design requires this
   identity space to be collision-free, so distinct tag kinds carry
   distinct Nat identities here.  boost::format is modelled for the
   directive subset the repository uses: %s, %d and the escape %%; any
   other directive after a percent sign is a malformed template.  Both
   boost::format substitution and boost::lexical_cast render a value
   through operator<<, which is the function Value.render below. -/

deriving instance DecidableEq for Except

namespace cppharem

/- Values carried by tag instances.  The repository declares only
   string-valued tag kinds (key_t, collection_t); integers are included
   because the message catalog also uses %d facts. -/
inductive Value
  | str (s : String)
  | int (n : Int)
deriving DecidableEq

/- Textual rendering through operator<<. -/
def Value.render : Value → String
  | Value.str s => s
  | Value.int n => toString n

/- info_impl_t::str : boost::lexical_cast<std::string>(value). -/
def lexical_cast (v : Value) : String :=
  match v with
  | Value.str s => s
  | Value.int n => toString n

/- A tag instance (DECLARE_TAG constructor call): the identity of its
   tag kind plus the wrapped value. -/
structure TagInst where
  hash : Nat
  value : Value
deriving DecidableEq

namespace type_traits

/- has_duplicates<Args...>: the size of the mpl::vector of the argument
   tag kinds differs from the size of the mpl::set of the same kinds,
   i.e. some tag kind identity repeats in the list. -/
def has_duplicates (hashes : List Nat) : Bool :=
  decide (hashes.dedup.length ≠ hashes.length)

end type_traits

namespace error_context

/- A parsed template item of boost::format: a literal character or a
   positional placeholder (%s or %d; the conversion character does not
   change how a string or integer is streamed, so it is not recorded). -/
inductive FmtItem
  | lit (c : Char)
  | placeholder
deriving DecidableEq

def FmtItem.isPh : FmtItem → Bool
  | FmtItem.placeholder => true
  | FmtItem.lit _ => false

/- boost::format constructor: parse the template; none models the
   bad_format_string exception. -/
def parseFmt : List Char → Option (List FmtItem)
  | [] => some []
  | c :: rest =>
    if c = '%' then
      match rest with
      | [] => none
      | d :: rest2 =>
        if d = '%' then Option.map (fun l => FmtItem.lit '%' :: l) (parseFmt rest2)
        else if d = 's' ∨ d = 'd' then
          Option.map (fun l => FmtItem.placeholder :: l) (parseFmt rest2)
        else none
    else Option.map (fun l => FmtItem.lit c :: l) (parseFmt rest)

/- Number of positional placeholders, i.e. how many arguments the
   boost::format object expects. -/
def numPh (items : List FmtItem) : Nat :=
  items.countP FmtItem.isPh

inductive FormatError
  | bad_format_string
  | too_few_args
  | too_many_args
deriving DecidableEq

/- State of a boost::format object: the parsed template plus the
   textual renderings of the arguments fed so far. -/
structure FormatState where
  items : List FmtItem
  bound : List String
deriving DecidableEq

/- operator% : feed one more argument.  boost::format raises
   too_many_args when every placeholder already has an argument. -/
def feed (st : FormatState) (v : Value) : Except FormatError FormatState :=
  if numPh st.items ≤ st.bound.length then Except.error FormatError.too_many_args
  else Except.ok { items := st.items, bound := st.bound ++ [Value.render v] }

/- detail::substitute applied to the remaining arguments: feed each in
   order, left to right. -/
def feedAll (st : FormatState) : List Value → Except FormatError FormatState
  | [] => Except.ok st
  | v :: rest =>
    match feed st v with
    | Except.error e => Except.error e
    | Except.ok st2 => feedAll st2 rest

/- Substitute the bound strings into the placeholders, left to right. -/
def renderChars : List FmtItem → List String → List Char
  | [], _ => []
  | FmtItem.lit c :: rest, bs => c :: renderChars rest bs
  | FmtItem.placeholder :: rest, [] => renderChars rest []
  | FmtItem.placeholder :: rest, b :: bs => b.data ++ renderChars rest bs

/- boost::format::str(): raises too_few_args unless every placeholder
   received an argument, otherwise produces the substituted text. -/
def formatStr (st : FormatState) : Except FormatError String :=
  if st.bound.length < numPh st.items then Except.error FormatError.too_few_args
  else Except.ok (String.mk (renderChars st.items st.bound))

/- error_context::format: build the boost::format object from the
   template, feed every argument value in order, then take str(). -/
def format (fmt : String) (args : List TagInst) : Except FormatError String :=
  match parseFmt fmt.toList with
  | none => Except.error FormatError.bad_format_string
  | some items =>
    match feedAll { items := items, bound := [] } (args.map (fun t => t.value)) with
    | Except.error e => Except.error e
    | Except.ok st => formatStr st

end error_context

inductive ConstructError
  | duplicateTagError
  | formatError (e : error_context.FormatError)
deriving DecidableEq

inductive GetError
  | tagNotFoundError
deriving DecidableEq

/- The error value (class error_t): rendered message, insertion-ordered
   tag identities, and the identity-to-holder lookup table. -/
structure error_t where
  m_reason : String
  m_hash_index : List Nat
  m_info_map : List (Nat × Value)
deriving DecidableEq

/- error_t::index for one tag instance: push the identity onto
   m_hash_index and insert the holder into m_info_map.
   std::unordered_map::insert does not overwrite an existing key. -/
def error_t.index1 (e : error_t) (t : TagInst) : error_t :=
  { e with
    m_hash_index := e.m_hash_index ++ [t.hash],
    m_info_map :=
      match e.m_info_map.lookup t.hash with
      | some _ => e.m_info_map
      | none => e.m_info_map ++ [(t.hash, t.value)] }

/- error_t::index over the whole argument pack, left to right. -/
def error_t.indexAll (e : error_t) : List TagInst → error_t
  | [] => e
  | t :: rest => (e.index1 t).indexAll rest

/- The error_t constructor: the static duplicate check fires before
   anything else; then the message is rendered (a boost exception there
   aborts construction before indexing); then the arguments are
   indexed. -/
def error_t.construct (reason : String) (args : List TagInst) : Except ConstructError error_t :=
  if type_traits.has_duplicates (args.map (fun t => t.hash)) then
    Except.error ConstructError.duplicateTagError
  else
    match error_context.format reason args with
    | Except.error e => Except.error (ConstructError.formatError e)
    | Except.ok msg =>
      Except.ok (error_t.indexAll { m_reason := msg, m_hash_index := [], m_info_map := [] } args)

/- error_t::what. -/
def error_t.what (e : error_t) : String := e.m_reason

/- error_t::get<T>, keyed by the tag kind identity T::hash(); a missing
   key raises the tag-not-found error. -/
def error_t.get (e : error_t) (h : Nat) : Except GetError Value :=
  match e.m_info_map.lookup h with
  | none => Except.error GetError.tagNotFoundError
  | some v => Except.ok v

/- DECLARE_TAG(std::string, key_t) and
   DECLARE_TAG(std::string, collection_t): two distinct tag kinds with
   the same declared value type; their marker types are distinct, so
   their identities differ. -/
def key_t_hash : Nat := 0

def collection_t_hash : Nat := 1

def key_t (s : String) : TagInst :=
  { hash := key_t_hash, value := Value.str s }

def collection_t (s : String) : TagInst :=
  { hash := collection_t_hash, value := Value.str s }

/- Specification-side rendering for the refinement claim C6, following
   the words of the spec (section 4.3): substitute, strictly left to
   right and positionally, one holder string rendering per placeholder
   of the template.  It consumes the string forms, where the source
   feeds the raw typed values into boost::format. -/
def spec_render (fmt : String) (strs : List String) : Option String :=
  match error_context.parseFmt fmt.toList with
  | none => none
  | some items =>
    if strs.length = error_context.numPh items then
      some (String.mk (error_context.renderChars items strs))
    else none

/- ------------------------------------------------------------------ -/
/- Supporting lemmas                                                   -/
/- ------------------------------------------------------------------ -/

theorem lexical_cast_eq_render (v : Value) : lexical_cast v = Value.render v := by
  cases v
  · rfl
  · rfl

theorem string_mk_toList (s : String) : String.mk s.toList = s := rfl

theorem has_duplicates_eq_false_iff (l : List Nat) :
    type_traits.has_duplicates l = false ↔ l.Nodup := by
  unfold type_traits.has_duplicates
  rw [decide_eq_false_iff_not, not_ne_iff]
  constructor
  · intro h
    have hs := (List.dedup_sublist l).eq_of_length h
    rw [← hs]
    exact List.nodup_dedup l
  · intro h
    rw [List.dedup_eq_self.mpr h]

theorem lookup_cons (k a : Nat) (b : Value) (rest : List (Nat × Value)) :
    List.lookup k ((a, b) :: rest) = if k = a then some b else List.lookup k rest := by
  simp only [List.lookup]
  by_cases h : k = a
  · simp [h]
  · have hb : (k == a) = false := by simp [h]
    rw [hb]
    simp [h]

theorem lookup_eq_none_iff (k : Nat) (l : List (Nat × Value)) :
    List.lookup k l = none ↔ k ∉ l.map Prod.fst := by
  induction l with
  | nil => simp [List.lookup]
  | cons p rest ih =>
    obtain ⟨a, b⟩ := p
    rw [lookup_cons]
    by_cases h : k = a
    · simp [h]
    · simp [h, ih]

theorem lookup_pairs (args : List TagInst) (h : Nat) :
    List.lookup h (args.map (fun t => (t.hash, t.value))) =
      Option.map (fun t => t.value) (args.find? (fun t => t.hash == h)) := by
  induction args with
  | nil => simp [List.lookup]
  | cons t rest ih =>
    simp only [List.map_cons]
    rw [lookup_cons]
    by_cases hh : h = t.hash
    · rw [if_pos hh]
      rw [List.find?_cons_of_pos]
      · simp
      · simp [hh]
    · rw [if_neg hh]
      rw [List.find?_cons_of_neg]
      · exact ih
      · simp
        exact fun hx => hh hx.symm

theorem indexAll_reason (args : List TagInst) : ∀ e : error_t,
    (e.indexAll args).m_reason = e.m_reason := by
  induction args with
  | nil => intro e; rfl
  | cons t rest ih =>
    intro e
    show ((e.index1 t).indexAll rest).m_reason = _
    rw [ih]
    rfl

theorem indexAll_build (args : List TagInst) : ∀ e : error_t,
    (e.m_info_map.map Prod.fst ++ args.map (fun t => t.hash)).Nodup →
    e.indexAll args =
      { m_reason := e.m_reason,
        m_hash_index := e.m_hash_index ++ args.map (fun t => t.hash),
        m_info_map := e.m_info_map ++ args.map (fun t => (t.hash, t.value)) } := by
  induction args with
  | nil =>
    intro e h
    cases e
    simp [error_t.indexAll]
  | cons t rest ih =>
    intro e h
    have hnotin : t.hash ∉ e.m_info_map.map Prod.fst := by
      intro hmem
      exact (List.nodup_append.mp h).2.2 hmem (by simp)
    have hlk : List.lookup t.hash e.m_info_map = none :=
      (lookup_eq_none_iff _ _).mpr hnotin
    have he1 : e.index1 t =
        { m_reason := e.m_reason,
          m_hash_index := e.m_hash_index ++ [t.hash],
          m_info_map := e.m_info_map ++ [(t.hash, t.value)] } := by
      unfold error_t.index1
      rw [hlk]
    show (e.index1 t).indexAll rest = _
    rw [he1, ih]
    · simp
    · simp only [List.map_append, List.map_cons]
      have : (e.m_info_map.map Prod.fst ++ [t.hash]) ++ rest.map (fun t => t.hash) =
          e.m_info_map.map Prod.fst ++ t.hash :: rest.map (fun t => t.hash) := by
        rw [List.append_assoc]
        rfl
      simpa [this] using h

theorem feedAll_ok (vals : List Value) : ∀ st : error_context.FormatState,
    st.bound.length + vals.length ≤ error_context.numPh st.items →
    error_context.feedAll st vals =
      Except.ok { items := st.items, bound := st.bound ++ vals.map Value.render } := by
  induction vals with
  | nil =>
    intro st h
    cases st
    simp [error_context.feedAll]
  | cons v rest ih =>
    intro st h
    have hlen : rest.length + 1 = (v :: rest).length := rfl
    have hlt : st.bound.length < error_context.numPh st.items := by
      simp only [List.length_cons] at h
      omega
    have hfeed : error_context.feed st v =
        Except.ok { items := st.items, bound := st.bound ++ [Value.render v] } := by
      unfold error_context.feed
      rw [if_neg (by omega)]
    show error_context.feedAll st (v :: rest) = _
    rw [error_context.feedAll, hfeed]
    show error_context.feedAll { items := st.items, bound := st.bound ++ [Value.render v] } rest = _
    rw [ih]
    · simp
    · show (st.bound ++ [Value.render v]).length + rest.length ≤ error_context.numPh st.items
      simp only [List.length_cons] at h
      simp only [List.length_append, List.length_cons, List.length_nil]
      omega

theorem feedAll_too_many (vals : List Value) : ∀ st : error_context.FormatState,
    vals ≠ [] →
    error_context.numPh st.items < st.bound.length + vals.length →
    error_context.feedAll st vals = Except.error error_context.FormatError.too_many_args := by
  induction vals with
  | nil =>
    intro st hne _
    exact absurd rfl hne
  | cons v rest ih =>
    intro st _ hlen
    by_cases hge : error_context.numPh st.items ≤ st.bound.length
    · have hfeed : error_context.feed st v =
          Except.error error_context.FormatError.too_many_args := by
        unfold error_context.feed
        rw [if_pos hge]
      rw [error_context.feedAll, hfeed]
    · have hlt : st.bound.length < error_context.numPh st.items := by omega
      have hfeed : error_context.feed st v =
          Except.ok { items := st.items, bound := st.bound ++ [Value.render v] } := by
        unfold error_context.feed
        rw [if_neg hge]
      rw [error_context.feedAll, hfeed]
      apply ih
      · intro hnil
        subst hnil
        simp only [List.length_cons, List.length_nil] at hlen
        omega
      · simp only [List.length_cons, List.length_append, List.length_nil] at hlen ⊢
        simp
        omega

theorem feedAll_shape (vals : List Value) : ∀ st st2 : error_context.FormatState,
    error_context.feedAll st vals = Except.ok st2 →
    st2.items = st.items ∧ st2.bound = st.bound ++ vals.map Value.render := by
  induction vals with
  | nil =>
    intro st st2 h
    rw [error_context.feedAll] at h
    injection h with h
    subst h
    simp
  | cons v rest ih =>
    intro st st2 h
    rw [error_context.feedAll] at h
    cases hf : error_context.feed st v with
    | error e =>
      rw [hf] at h
      cases h
    | ok stm =>
      rw [hf] at h
      have hshape := ih stm st2 h
      unfold error_context.feed at hf
      by_cases hge : error_context.numPh st.items ≤ st.bound.length
      · rw [if_pos hge] at hf
        cases hf
      · rw [if_neg hge] at hf
        injection hf with hf
        subst hf
        obtain ⟨h1, h2⟩ := hshape
        constructor
        · exact h1
        · rw [h2]
          simp

theorem format_ok_elim (reason : String) (args : List TagInst) (msg : String)
    (h : error_context.format reason args = Except.ok msg) :
    ∃ items, error_context.parseFmt reason.toList = some items ∧
      args.length = error_context.numPh items ∧
      msg = String.mk
        (error_context.renderChars items (args.map (fun t => Value.render t.value))) := by
  unfold error_context.format at h
  split at h
  · cases h
  · rename_i items hp
    split at h
    · cases h
    · rename_i st hf
      obtain ⟨hi, hb⟩ := feedAll_shape _ _ _ hf
      have hi2 : st.items = items := hi
      have hb2 : st.bound = (args.map (fun t => t.value)).map Value.render := hb
      unfold error_context.formatStr at h
      split at h
      · cases h
      · rename_i hlt
        injection h with h
        have hblen : st.bound.length = args.length := by
          rw [hb2]
          simp
        have hle : args.length ≤ error_context.numPh items := by
          by_contra hgt
          push_neg at hgt
          have htm : error_context.feedAll { items := items, bound := [] }
              (args.map (fun t => t.value)) =
              Except.error error_context.FormatError.too_many_args := by
            apply feedAll_too_many
            · intro hnil
              have : args.length = 0 := by simpa using congrArg List.length hnil
              omega
            · show error_context.numPh items <
                ([] : List String).length + (args.map (fun t => t.value)).length
              simp
              omega
          rw [htm] at hf
          cases hf
        refine ⟨items, hp, ?_, ?_⟩
        · have hge : error_context.numPh st.items ≤ st.bound.length := by omega
          rw [hi2, hblen] at hge
          omega
        · rw [← h, hi2, hb2]
          simp [List.map_map]
          rfl

theorem construct_ok_elim (reason : String) (args : List TagInst) (e : error_t)
    (h : error_t.construct reason args = Except.ok e) :
    (args.map (fun t => t.hash)).Nodup ∧
      ∃ msg, error_context.format reason args = Except.ok msg ∧
        e = error_t.indexAll { m_reason := msg, m_hash_index := [], m_info_map := [] } args := by
  unfold error_t.construct at h
  split at h
  · cases h
  · rename_i hdup
    have hnd : (args.map (fun t => t.hash)).Nodup :=
      (has_duplicates_eq_false_iff _).mp (Bool.eq_false_iff.mpr hdup)
    split at h
    · cases h
    · rename_i msg hfmt
      injection h with h
      exact ⟨hnd, msg, hfmt, h.symm⟩

theorem construct_ok_fields (reason : String) (args : List TagInst) (e : error_t)
    (h : error_t.construct reason args = Except.ok e) :
    e.m_hash_index = args.map (fun t => t.hash) ∧
      e.m_info_map = args.map (fun t => (t.hash, t.value)) ∧
      ∃ msg, error_context.format reason args = Except.ok msg ∧ e.m_reason = msg := by
  obtain ⟨hnd, msg, hfmt, he⟩ := construct_ok_elim reason args e h
  have hbuild := indexAll_build args
      { m_reason := msg, m_hash_index := [], m_info_map := [] } (by simpa using hnd)
  rw [hbuild] at he
  subst he
  refine ⟨by simp, by simp, msg, hfmt, by simp⟩

theorem get_construct (reason : String) (args : List TagInst) (e : error_t) (h : Nat)
    (hok : error_t.construct reason args = Except.ok e) :
    e.get h = (match args.find? (fun t => t.hash == h) with
      | none => Except.error GetError.tagNotFoundError
      | some t => Except.ok t.value) := by
  obtain ⟨hidx, hmap, _⟩ := construct_ok_fields reason args e hok
  unfold error_t.get
  rw [hmap, lookup_pairs]
  cases args.find? (fun t => t.hash == h) with
  | none => rfl
  | some t => rfl

theorem parseFmt_no_pct (cs : List Char) (h : '%' ∉ cs) :
    error_context.parseFmt cs = some (cs.map error_context.FmtItem.lit) := by
  induction cs with
  | nil => rfl
  | cons c rest ih =>
    have hc : ¬ c = '%' := by
      intro hh
      exact h (by rw [hh]; exact List.mem_cons_self _ _)
    have hr : '%' ∉ rest := fun hm => h (List.mem_cons_of_mem _ hm)
    rw [error_context.parseFmt.eq_def]
    simp [hc, ih hr]

theorem renderChars_lits (cs : List Char) (bs : List String) :
    error_context.renderChars (cs.map error_context.FmtItem.lit) bs = cs := by
  induction cs with
  | nil => rfl
  | cons c rest ih =>
    rw [List.map_cons, error_context.renderChars, ih]

theorem numPh_lits (cs : List Char) :
    error_context.numPh (cs.map error_context.FmtItem.lit) = 0 := by
  induction cs with
  | nil => rfl
  | cons c rest ih =>
    unfold error_context.numPh at ih ⊢
    rw [List.map_cons, List.countP_cons]
    simp [error_context.FmtItem.isPh, ih]

theorem format_eq_of_parse (reason : String) (args : List TagInst)
    (items : List error_context.FmtItem)
    (hp : error_context.parseFmt reason.toList = some items) :
    error_context.format reason args =
      (match error_context.feedAll { items := items, bound := [] }
          (args.map (fun t => t.value)) with
        | Except.error e => Except.error e
        | Except.ok st => error_context.formatStr st) := by
  unfold error_context.format
  rw [hp]

theorem format_too_few (reason : String) (args : List TagInst)
    (items : List error_context.FmtItem)
    (hp : error_context.parseFmt reason.toList = some items)
    (hlen : args.length < error_context.numPh items) :
    error_context.format reason args = Except.error error_context.FormatError.too_few_args := by
  rw [format_eq_of_parse reason args items hp]
  have hok := feedAll_ok (args.map (fun t => t.value)) { items := items, bound := [] }
    (by
      show ([] : List String).length + (args.map (fun t => t.value)).length ≤
        error_context.numPh items
      simp
      omega)
  rw [hok]
  show error_context.formatStr
      { items := items, bound := [] ++ (args.map (fun t => t.value)).map Value.render } = _
  unfold error_context.formatStr
  rw [if_pos (by simp; omega)]

theorem format_too_many (reason : String) (args : List TagInst)
    (items : List error_context.FmtItem)
    (hp : error_context.parseFmt reason.toList = some items)
    (hlen : error_context.numPh items < args.length) :
    error_context.format reason args = Except.error error_context.FormatError.too_many_args := by
  rw [format_eq_of_parse reason args items hp]
  have htm := feedAll_too_many (args.map (fun t => t.value)) { items := items, bound := [] }
    (by
      intro hnil
      have : args.length = 0 := by simpa using congrArg List.length hnil
      omega)
    (by
      show error_context.numPh items <
        ([] : List String).length + (args.map (fun t => t.value)).length
      simp
      omega)
  rw [htm]

theorem format_malformed (reason : String) (args : List TagInst)
    (hp : error_context.parseFmt reason.toList = none) :
    error_context.format reason args =
      Except.error error_context.FormatError.bad_format_string := by
  unfold error_context.format
  rw [hp]

theorem construct_fmt_error (reason : String) (args : List TagInst)
    (fe : error_context.FormatError)
    (hnd : (args.map (fun t => t.hash)).Nodup)
    (hfmt : error_context.format reason args = Except.error fe) :
    error_t.construct reason args = Except.error (ConstructError.formatError fe) := by
  have hd : type_traits.has_duplicates (args.map (fun t => t.hash)) = false :=
    (has_duplicates_eq_false_iff _).mpr hnd
  unfold error_t.construct
  rw [if_neg (by rw [hd]; simp), hfmt]

theorem construct_ok_intro (reason : String) (args : List TagInst)
    (items : List error_context.FmtItem)
    (hnd : (args.map (fun t => t.hash)).Nodup)
    (hp : error_context.parseFmt reason.toList = some items)
    (hlen : args.length = error_context.numPh items) :
    error_t.construct reason args = Except.ok (error_t.indexAll
      { m_reason := String.mk (error_context.renderChars items
          (args.map (fun t => Value.render t.value))),
        m_hash_index := [], m_info_map := [] } args) := by
  have hfmt : error_context.format reason args = Except.ok
      (String.mk (error_context.renderChars items
        (args.map (fun t => Value.render t.value)))) := by
    rw [format_eq_of_parse reason args items hp]
    have hok := feedAll_ok (args.map (fun t => t.value)) { items := items, bound := [] }
      (by
        show ([] : List String).length + (args.map (fun t => t.value)).length ≤
          error_context.numPh items
        simp
        omega)
    rw [hok]
    show error_context.formatStr
        { items := items,
          bound := [] ++ (args.map (fun t => t.value)).map Value.render } = _
    unfold error_context.formatStr
    rw [if_neg (by simp; omega)]
    rw [List.nil_append, List.map_map]
    rfl
  have hd : type_traits.has_duplicates (args.map (fun t => t.hash)) = false :=
    (has_duplicates_eq_false_iff _).mpr hnd
  unfold error_t.construct
  rw [if_neg (by rw [hd]; simp), hfmt]

end cppharem

/- ------------------------------------------------------------------ -/
/- Claims                                                              -/
/- ------------------------------------------------------------------ -/

open cppharem

/-- C2: for every template string and every argument sequence containing two
instances of the same tag kind, whatever the values or positions involved,
construction fails with the duplicate-tag error.  The template is fully
universally quantified, including malformed templates, so the duplicate
failure is seen to come before rendering and before indexing. -/
theorem C2_duplicate_rejection (reason : String) (args : List TagInst)
    (hdup : ¬ (args.map (fun t => t.hash)).Nodup) :
    error_t.construct reason args = Except.error ConstructError.duplicateTagError := by
  have hd : type_traits.has_duplicates (args.map (fun t => t.hash)) = true := by
    cases hb : type_traits.has_duplicates (args.map (fun t => t.hash)) with
    | false => exact absurd ((has_duplicates_eq_false_iff _).mp hb) hdup
    | true => rfl
  unfold error_t.construct
  rw [if_pos hd]

theorem C2_duplicate_rejection_witness :
    ¬ (([key_t "a", key_t "b"].map (fun t => t.hash)).Nodup) ∧
      error_t.construct "%z" [key_t "a", key_t "b"] =
        Except.error ConstructError.duplicateTagError :=
  ⟨by decide, C2_duplicate_rejection "%z" [key_t "a", key_t "b"] (by decide)⟩

/-- C3: for every tag instance supplied to a construction that succeeded,
retrieval keyed by that tag kind identity returns exactly the originally
wrapped typed value, with no stringification involved. -/
theorem C3_typed_round_trip (reason : String) (args : List TagInst) (e : error_t)
    (t : TagInst) (hok : error_t.construct reason args = Except.ok e)
    (hmem : t ∈ args) :
    e.get t.hash = Except.ok t.value := by
  rw [get_construct reason args e t.hash hok]
  obtain ⟨hnd, _⟩ := construct_ok_elim reason args e hok
  cases hfind : args.find? (fun u => u.hash == t.hash) with
  | none =>
    rw [List.find?_eq_none] at hfind
    exact absurd (by simp) (hfind t hmem)
  | some u =>
    have hp := List.find?_some hfind
    have humem := List.mem_of_find?_eq_some hfind
    have hut : u = t :=
      List.inj_on_of_nodup_map hnd humem hmem (by simpa using hp)
    rw [hut]

theorem C3_typed_round_trip_witness :
    error_t.get
        { m_reason := "k", m_hash_index := [key_t_hash],
          m_info_map := [(key_t_hash, Value.str "k")] }
        (key_t "k").hash = Except.ok (key_t "k").value :=
  C3_typed_round_trip "%s" [key_t "k"]
    { m_reason := "k", m_hash_index := [key_t_hash],
      m_info_map := [(key_t_hash, Value.str "k")] }
    (key_t "k") (by decide) (by decide)

/-- C4: on a successfully constructed error, retrieval for a tag kind
identity fails with the tag-not-found error exactly when no instance of
that tag kind was among the construction arguments.  Retrieval is a pure
function of the error value in this embedding, so a failed retrieval
leaves the error value, its message and every other retrieval unchanged. -/
theorem C4_absence_iff (reason : String) (args : List TagInst) (e : error_t)
    (h : Nat) (hok : error_t.construct reason args = Except.ok e) :
    e.get h = Except.error GetError.tagNotFoundError ↔
      h ∉ args.map (fun t => t.hash) := by
  rw [get_construct reason args e h hok]
  cases hfind : args.find? (fun t => t.hash == h) with
  | none =>
    rw [List.find?_eq_none] at hfind
    constructor
    · intro _ hmem
      obtain ⟨t, hmemt, ht⟩ := List.mem_map.mp hmem
      exact hfind t hmemt (by simp [ht])
    · intro _
      rfl
  | some t =>
    have hp := List.find?_some hfind
    have hmem := List.mem_of_find?_eq_some hfind
    constructor
    · intro hcontra
      exact absurd hcontra (by simp)
    · intro hnot
      exact absurd (List.mem_map.mpr ⟨t, hmem, by simpa using hp⟩) hnot

theorem C4_absence_iff_witness :
    error_t.get
        { m_reason := "k", m_hash_index := [key_t_hash],
          m_info_map := [(key_t_hash, Value.str "k")] }
        collection_t_hash = Except.error GetError.tagNotFoundError ↔
      collection_t_hash ∉ [key_t "k"].map (fun t => t.hash) :=
  C4_absence_iff "%s" [key_t "k"]
    { m_reason := "k", m_hash_index := [key_t_hash],
      m_info_map := [(key_t_hash, Value.str "k")] }
    collection_t_hash (by decide)

/-- C8: on a successfully constructed error, the ordered identity index
m_hash_index is exactly the argument tag identities in argument order, the
key column of the m_info_map lookup table is exactly that same identity
sequence (the bijection between tag order and context entries), and the
identities are pairwise distinct, so the table never holds two entries
under the same identity. -/
theorem C8_index_map_bijection (reason : String) (args : List TagInst)
    (e : error_t) (hok : error_t.construct reason args = Except.ok e) :
    e.m_hash_index = args.map (fun t => t.hash) ∧
      e.m_info_map.map Prod.fst = e.m_hash_index ∧
      e.m_hash_index.Nodup := by
  obtain ⟨hidx, hmap, _⟩ := construct_ok_fields reason args e hok
  obtain ⟨hnd, _⟩ := construct_ok_elim reason args e hok
  refine ⟨hidx, ?_, ?_⟩
  · rw [hmap, hidx, List.map_map]
    rfl
  · rw [hidx]
    exact hnd

theorem C8_index_map_bijection_witness :
    (error_t.m_hash_index
        { m_reason := "ab", m_hash_index := [key_t_hash, collection_t_hash],
          m_info_map := [(key_t_hash, Value.str "a"), (collection_t_hash, Value.str "b")] } =
      [key_t "a", collection_t "b"].map (fun t => t.hash)) ∧
      (error_t.m_info_map
          { m_reason := "ab", m_hash_index := [key_t_hash, collection_t_hash],
            m_info_map := [(key_t_hash, Value.str "a"), (collection_t_hash, Value.str "b")] }).map Prod.fst =
        error_t.m_hash_index
          { m_reason := "ab", m_hash_index := [key_t_hash, collection_t_hash],
            m_info_map := [(key_t_hash, Value.str "a"), (collection_t_hash, Value.str "b")] } ∧
      (error_t.m_hash_index
          { m_reason := "ab", m_hash_index := [key_t_hash, collection_t_hash],
            m_info_map := [(key_t_hash, Value.str "a"), (collection_t_hash, Value.str "b")] }).Nodup :=
  C8_index_map_bijection "%s%s" [key_t "a", collection_t "b"]
    { m_reason := "ab", m_hash_index := [key_t_hash, collection_t_hash],
      m_info_map := [(key_t_hash, Value.str "a"), (collection_t_hash, Value.str "b")] }
    (by decide)

/-- C1 counterexample: the claim says that supplying more tag instances
than the template has placeholders still constructs successfully.  On the
code, boost::format raises the too-many-arguments format error when an
argument beyond the placeholder count is fed, so construction fails for
the template with zero placeholders and one supplied tag instance. -/
theorem C1_extra_arguments_counterexample :
    error_t.construct "hello" [key_t "k"] =
      Except.error (ConstructError.formatError error_context.FormatError.too_many_args) := by
  decide

/-- C1 (amended): for every well-formed template and every duplicate-free
argument sequence longer than the placeholder count, construction fails
with the too-many-arguments format error; the extra values are never
tolerated, and nothing is indexed. -/
theorem C1_extra_arguments_rejected (reason : String) (args : List TagInst)
    (items : List error_context.FmtItem)
    (hnd : (args.map (fun t => t.hash)).Nodup)
    (hp : error_context.parseFmt reason.toList = some items)
    (hlen : error_context.numPh items < args.length) :
    error_t.construct reason args =
      Except.error (ConstructError.formatError error_context.FormatError.too_many_args) :=
  construct_fmt_error reason args _ hnd (format_too_many reason args items hp hlen)

theorem C1_extra_arguments_rejected_witness :
    error_t.construct "hello" [collection_t "c"] =
      Except.error (ConstructError.formatError error_context.FormatError.too_many_args) :=
  C1_extra_arguments_rejected "hello" [collection_t "c"]
    [error_context.FmtItem.lit 'h', error_context.FmtItem.lit 'e',
      error_context.FmtItem.lit 'l', error_context.FmtItem.lit 'l',
      error_context.FmtItem.lit 'o']
    (by decide) (by decide) (by decide)

/-- C5: when the duplicate check passes, a template with more placeholders
than supplied tag instances makes construction fail with the
too-few-arguments format error, and a template that is malformed for the
formatting grammar makes construction fail with the bad-format-string
error; in both cases no error value is produced. -/
theorem C5_format_failure (reason : String) (args : List TagInst)
    (hnd : (args.map (fun t => t.hash)).Nodup) :
    (∀ items, error_context.parseFmt reason.toList = some items →
        args.length < error_context.numPh items →
        error_t.construct reason args =
          Except.error (ConstructError.formatError error_context.FormatError.too_few_args)) ∧
      (error_context.parseFmt reason.toList = none →
        error_t.construct reason args =
          Except.error (ConstructError.formatError error_context.FormatError.bad_format_string)) := by
  constructor
  · intro items hp hlen
    exact construct_fmt_error reason args _ hnd (format_too_few reason args items hp hlen)
  · intro hp
    exact construct_fmt_error reason args _ hnd (format_malformed reason args hp)

theorem C5_format_failure_witness :
    error_t.construct "%s%s" [key_t "k"] =
      Except.error (ConstructError.formatError error_context.FormatError.too_few_args) :=
  (C5_format_failure "%s%s" [key_t "k"] (by decide)).1
    [error_context.FmtItem.placeholder, error_context.FmtItem.placeholder]
    (by decide) (by decide)

/-- C6: on every successful construction, the stored message coincides
with the specification-side rendering that substitutes the holders string
forms (boost::lexical_cast of each value) positionally into the template,
left to right: feeding the raw typed values into the formatter and
substituting the string renderings produce the same text. -/
theorem C6_message_refinement (reason : String) (args : List TagInst)
    (e : error_t) (hok : error_t.construct reason args = Except.ok e) :
    spec_render reason (args.map (fun t => lexical_cast t.value)) = some e.what := by
  obtain ⟨hnd, msg, hfmt, he⟩ := construct_ok_elim reason args e hok
  obtain ⟨items, hp, hlen, hmsg⟩ := format_ok_elim reason args msg hfmt
  have hstr : args.map (fun t => lexical_cast t.value) =
      args.map (fun t => Value.render t.value) := by
    apply List.map_congr_left
    intro t _
    exact lexical_cast_eq_render _
  unfold spec_render
  rw [hp]
  show (if (args.map (fun t => lexical_cast t.value)).length = error_context.numPh items then
      some (String.mk (error_context.renderChars items
        (args.map (fun t => lexical_cast t.value))))
    else none) = some e.what
  rw [hstr, if_pos (by simpa using hlen)]
  have hwhat : e.what = msg := by
    rw [he]
    show (error_t.indexAll _ args).m_reason = msg
    rw [indexAll_reason]
  rw [hwhat, hmsg]

theorem C6_message_refinement_witness :
    spec_render "%s" ([key_t "k"].map (fun t => lexical_cast t.value)) =
      some (error_t.what
        { m_reason := "k", m_hash_index := [key_t_hash],
          m_info_map := [(key_t_hash, Value.str "k")] }) :=
  C6_message_refinement "%s" [key_t "k"]
    { m_reason := "k", m_hash_index := [key_t_hash],
      m_info_map := [(key_t_hash, Value.str "k")] }
    (by decide)

/-- C7: two errors successfully constructed from the same template and two
orderings of the same duplicate-free tag instances give identical
retrieval results for every tag kind identity, both when the value is
present and when the lookup fails. -/
theorem C7_order_independent_lookup (reason : String)
    (args args2 : List TagInst) (e e2 : error_t) (h : Nat)
    (hperm : args.Perm args2)
    (hok : error_t.construct reason args = Except.ok e)
    (hok2 : error_t.construct reason args2 = Except.ok e2) :
    e.get h = e2.get h := by
  rw [get_construct reason args e h hok, get_construct reason args2 e2 h hok2]
  obtain ⟨hnd, _⟩ := construct_ok_elim reason args e hok
  cases hf1 : args.find? (fun t => t.hash == h) with
  | none =>
    have hf2 : args2.find? (fun t => t.hash == h) = none := by
      rw [List.find?_eq_none] at hf1 ⊢
      intro x hx
      exact hf1 x (hperm.mem_iff.mpr hx)
    rw [hf2]
  | some t =>
    have hmem1 := List.mem_of_find?_eq_some hf1
    have hp1 := List.find?_some hf1
    cases hf2 : args2.find? (fun t => t.hash == h) with
    | none =>
      rw [List.find?_eq_none] at hf2
      exact absurd hp1 (hf2 t (hperm.mem_iff.mp hmem1))
    | some u =>
      have hmem2 := hperm.mem_iff.mpr (List.mem_of_find?_eq_some hf2)
      have hp2 := List.find?_some hf2
      have hut : u = t := by
        apply List.inj_on_of_nodup_map hnd hmem2 hmem1
        simp at hp1 hp2
        rw [hp1, hp2]
      rw [hut]

theorem C7_order_independent_lookup_witness :
    error_t.get
        { m_reason := "ab", m_hash_index := [key_t_hash, collection_t_hash],
          m_info_map := [(key_t_hash, Value.str "a"), (collection_t_hash, Value.str "b")] }
        key_t_hash =
      error_t.get
        { m_reason := "ba", m_hash_index := [collection_t_hash, key_t_hash],
          m_info_map := [(collection_t_hash, Value.str "b"), (key_t_hash, Value.str "a")] }
        key_t_hash :=
  C7_order_independent_lookup "%s%s"
    [key_t "a", collection_t "b"] [collection_t "b", key_t "a"]
    { m_reason := "ab", m_hash_index := [key_t_hash, collection_t_hash],
      m_info_map := [(key_t_hash, Value.str "a"), (collection_t_hash, Value.str "b")] }
    { m_reason := "ba", m_hash_index := [collection_t_hash, key_t_hash],
      m_info_map := [(collection_t_hash, Value.str "b"), (key_t_hash, Value.str "a")] }
    key_t_hash (by decide) (by decide) (by decide)

/-- C9: the two declared tag kinds key_t and collection_t share the value
type yet stay distinguishable: with any well-formed two-placeholder
template, constructing with one instance of each succeeds (the duplicate
check keys on tag kind identity, not value type), and retrieval keyed by
each kind returns that kinds own value. -/
theorem C9_same_value_type_kinds_distinct (a b : String) (reason : String)
    (items : List error_context.FmtItem)
    (hp : error_context.parseFmt reason.toList = some items)
    (hn : error_context.numPh items = 2) :
    ∃ e, error_t.construct reason [key_t a, collection_t b] = Except.ok e ∧
      e.get key_t_hash = Except.ok (Value.str a) ∧
      e.get collection_t_hash = Except.ok (Value.str b) := by
  have hnd : (([key_t a, collection_t b]).map (fun t => t.hash)).Nodup := by
    show ([key_t_hash, collection_t_hash] : List Nat).Nodup
    decide
  have hok := construct_ok_intro reason [key_t a, collection_t b] items hnd hp
    (by rw [hn]; rfl)
  refine ⟨_, hok, ?_, ?_⟩
  · rw [get_construct _ _ _ _ hok]
    rfl
  · rw [get_construct _ _ _ _ hok]
    rfl

theorem C9_same_value_type_kinds_distinct_witness :
    ∃ e, error_t.construct "%s%s" [key_t "x", collection_t "y"] = Except.ok e ∧
      e.get key_t_hash = Except.ok (Value.str "x") ∧
      e.get collection_t_hash = Except.ok (Value.str "y") :=
  C9_same_value_type_kinds_distinct "x" "y" "%s%s"
    [error_context.FmtItem.placeholder, error_context.FmtItem.placeholder]
    (by decide) (by decide)

/-- C10 counterexample: the claim says that with zero tag instances and a
template containing no placeholders, the stored message is exactly the
template text.  The template consisting of the escape sequence contains
no placeholders (it consumes no arguments), construction with it
succeeds, yet the message is the single percent character, not the
two-character template text. -/
theorem C10_empty_construction_counterexample :
    error_t.construct "%%" [] =
      Except.ok { m_reason := "%", m_hash_index := [], m_info_map := [] } ∧
      ("%" : String) ≠ "%%" := by
  constructor
  · decide
  · decide

/-- C10 (amended): constructing with zero tag instances and a template
free of percent characters (so containing no placeholders and no escape
sequences) succeeds: the duplicate check passes vacuously, the stored
message is exactly the template text, the identity index and the lookup
table are empty, and retrieval fails with the tag-not-found error for
every tag kind identity. -/
theorem C10_empty_construction (reason : String) (hpc : '%' ∉ reason.toList) :
    error_t.construct reason [] =
      Except.ok { m_reason := reason, m_hash_index := [], m_info_map := [] } ∧
      ∀ h : Nat, error_t.get
          { m_reason := reason, m_hash_index := [], m_info_map := [] } h =
        Except.error GetError.tagNotFoundError := by
  constructor
  · have hok := construct_ok_intro reason [] (reason.toList.map error_context.FmtItem.lit)
      (by simp) (parseFmt_no_pct _ hpc) (by rw [numPh_lits]; rfl)
    rw [hok]
    simp only [error_t.indexAll]
    rw [renderChars_lits]
    rfl
  · intro h
    rfl

theorem C10_empty_construction_witness :
    ('%' ∉ ("hi" : String).toList) ∧
      (error_t.construct "hi" [] =
          Except.ok { m_reason := "hi", m_hash_index := [], m_info_map := [] } ∧
        ∀ h : Nat, error_t.get
            { m_reason := "hi", m_hash_index := [], m_info_map := [] } h =
          Except.error GetError.tagNotFoundError) :=
  ⟨by decide, C10_empty_construction "hi" (by decide)⟩
